import Mathlib

/-!
Verification development for the follow-up orchestration and delivery
engine (app/models/priority.py, app/jobs/scheduler_service.py,
app/jobs/followup_service.py, app/services/email_service.py,
app/services/retry_logger.py, app/core/decorators.py,
app/services/batch_processor.py).

Python floats are modelled as rationals, datetimes as rational day counts
since an epoch, and Python dictionaries with dynamic values as association
lists over a small value type.  Fallible Python code is embedded in the
Except monad; a raised exception is an Except.error value.
-/

/-- Model of the Python exceptions that the embedded code can raise. -/
inductive PyErr where
  | keyError (k : String)
  | attributeError (m : String)
  | valueError (m : String)
  | typeError (m : String)
  | runtimeError (m : String)
deriving Repr, DecidableEq

/-- Model of a dynamically typed Python value as it appears in lead and
message dictionaries: strings, numbers (floats as rationals), booleans,
None, and nested dictionaries. -/
inductive PVal where
  | pstr (s : String)
  | pnum (q : ℚ)
  | pbool (b : Bool)
  | pnone
  | pdict (d : List (String × PVal))
deriving Repr

mutual

/-- Structural equality test on dynamic values, modelling the Python
equality operator on the shapes that occur in this code base. -/
def pvalBeq : PVal → PVal → Bool
  | PVal.pstr a, PVal.pstr b => a == b
  | PVal.pnum a, PVal.pnum b => a == b
  | PVal.pbool a, PVal.pbool b => a == b
  | PVal.pnone, PVal.pnone => true
  | PVal.pdict a, PVal.pdict b => pdictBeq a b
  | _, _ => false

/-- Structural equality test on dictionaries of dynamic values. -/
def pdictBeq : List (String × PVal) → List (String × PVal) → Bool
  | [], [] => true
  | (k1, v1) :: t1, (k2, v2) :: t2 => k1 == k2 && pvalBeq v1 v2 && pdictBeq t1 t2
  | _, _ => false

end

instance : BEq PVal := ⟨pvalBeq⟩

/-- A Python dictionary with string keys. -/
abbrev PyDict := List (String × PVal)

/-- Lookup of a key in a dictionary, returning the stored value if present. -/
def dictLookup (d : PyDict) (k : String) : Option PVal :=
  (d.find? (fun p => p.1 == k)).map (fun p => p.2)

/-- Embeds the Python expression d.get(k, dflt). -/
def dictGetD (d : PyDict) (k : String) (dflt : PVal) : PVal :=
  (dictLookup d k).getD dflt

/-- Embeds the Python expression d[k]: raises KeyError when absent. -/
def getItem (d : PyDict) (k : String) : Except PyErr PVal :=
  match dictLookup d k with
  | some v => Except.ok v
  | none => Except.error (PyErr.keyError k)

/-- Embeds the Python dictionary merge with a single key, as in the
comprehension that adds a priority_score key to a lead: an existing key is
overwritten in place, a fresh key is appended at the end. -/
def dictSet (d : PyDict) (k : String) (v : PVal) : PyDict :=
  if d.any (fun p => p.1 == k) then
    d.map (fun p => if p.1 == k then (k, v) else p)
  else
    d ++ [(k, v)]

/-- Embeds the Python expression v.get(k, dflt) on a dynamic value: only a
dictionary has a get attribute, any other value raises AttributeError. -/
def pvalGetD (v : PVal) (k : String) (dflt : PVal) : Except PyErr PVal :=
  match v with
  | PVal.pdict d => Except.ok (dictGetD d k dflt)
  | _ => Except.error (PyErr.attributeError "get")

/-- Lower-casing of a string character by character, the effect of the
Python lower method on the ASCII classification and source values used
here. -/
def strLower (s : String) : String := String.mk (s.data.map Char.toLower)

/-- Embeds the Python expression v.lower(): only a string has a lower
attribute. -/
def pvalLower (v : PVal) : Except PyErr String :=
  match v with
  | PVal.pstr s => Except.ok (strLower s)
  | _ => Except.error (PyErr.attributeError "lower")

/-- Python truthiness of a value, used for if-not tests on optional lead
fields. -/
def pvalTruthy (v : PVal) : Bool :=
  match v with
  | PVal.pstr s => !(s == "")
  | PVal.pnum q => !(q == 0)
  | PVal.pbool b => b
  | PVal.pnone => false
  | PVal.pdict d => !d.isEmpty

/-- Boolean helper deciding whether an Except value is a success. -/
def exOk {ε α : Type} : Except ε α → Bool
  | Except.ok _ => true
  | Except.error _ => false

/-- A point in time, measured in days since an arbitrary epoch.  A Python
timedelta is the difference of two such values. -/
abbrev DTime := ℚ

/-- Embeds the days attribute of a Python timedelta, which truncates toward
negative infinity. -/
def timedeltaDays (d : DTime) : ℤ := ⌊d⌋

/-- Embeds the total_seconds method of a Python timedelta. -/
def timedeltaTotalSeconds (d : DTime) : ℚ := d * 86400

/-- String comparison a <= b with Python semantics (lexicographic by code
point), matching the timestamp-window comparisons in the scorer. -/
def strLe (a b : String) : Bool := a == b || a < b

/-- Embeds the Python builtin round(x, 4) used at the end of
PriorityScorer.compute.  Python rounds ties on binary floats; the rational
model rounds half up, which agrees except on exact representable ties. -/
def round4 (q : ℚ) : ℚ := ((⌊q * 10000 + 1/2⌋ : ℤ) : ℚ) / 10000

/-- Configuration values read by the embedded code.  The fields up to
PRIORITY_CLASS_SCORES carry the defaults declared in
app/services/config_manager.py.  The FOLLOWUP fields are referenced by
app/jobs/scheduler_service.py, app/jobs/followup_service.py and
app/services/email_service.py but are not declared in the Settings class;
they are modelled as plain configuration parameters with no default. -/
structure Settings where
  PRIORITY_RECENCY_WEIGHT : ℚ := 1/2
  PRIORITY_ENGAGEMENT_WEIGHT : ℚ := 3/10
  PRIORITY_CLASS_WEIGHT : ℚ := 1/5
  PRIORITY_RECENCY_HALF_LIFE_DAYS : ℕ := 7
  PRIORITY_ENGAGEMENT_WINDOW_DAYS : ℕ := 14
  PRIORITY_CLASS_SCORES : List (String × ℚ) :=
    [("hot", 1), ("warm", 7/10), ("cold", 3/10), ("default", 1/2)]
  EMAIL_START_HOUR : ℤ := 9
  EMAIL_END_HOUR : ℤ := 17
  FOLLOWUP_THROTTLE_SECONDS : ℚ
  FOLLOWUP_MIN_SCORE : ℚ
  FOLLOWUP_QUEUE_ALERT_THRESHOLD : ℕ
  FOLLOWUP_START_HOUR : ℤ
  FOLLOWUP_END_HOUR : ℤ

/-- External collaborators of the priority scorer: the conversation store,
the timestamp parser and formatter of the datetime library, and the two
clocks the source reads (datetime.utcnow and datetime.now). -/
structure ScorerEnv where
  fetch_recent_conversations : PVal → ℕ → Except PyErr (List PyDict)
  fromisoformat : String → Except PyErr DTime
  isoformat : DTime → String
  utcnow : DTime
  now : DTime

/-- Embeds get_weights from app/models/priority.py: the weights dictionary
holds exactly the keys recency, engagement and classification. -/
def get_weights (s : Settings) : List (String × ℚ) :=
  [("recency", s.PRIORITY_RECENCY_WEIGHT),
   ("engagement", s.PRIORITY_ENGAGEMENT_WEIGHT),
   ("classification", s.PRIORITY_CLASS_WEIGHT)]

/-- Lookup in the weights dictionary by subscription, raising KeyError for a
missing key, as in self.weights of calculate_priority_score. -/
def weights_item (w : List (String × ℚ)) (k : String) : Except PyErr ℚ :=
  match (w.find? (fun p => p.1 == k)).map (fun p => p.2) with
  | some q => Except.ok q
  | none => Except.error (PyErr.keyError k)

/-- Embeds PriorityScorer._recency_score: days elapsed since the last
contact, truncated to whole days, put through a linear decay clamped below
at zero. -/
def recency_score (s : Settings) (env : ScorerEnv) (last_contact : DTime) : ℚ :=
  let days : ℤ := timedeltaDays (env.utcnow - last_contact)
  max 0 (1 - (days : ℚ) / (s.PRIORITY_RECENCY_HALF_LIFE_DAYS : ℚ))

/-- One message test of the inbound generator expression in
PriorityScorer._engagement_score: role equality short-circuits before the
timestamp is read, and comparing a non-string timestamp raises TypeError. -/
def engagement_msg_inbound (wstr : String) (m : PyDict) : Except PyErr Bool := do
  let role ← getItem m "role"
  match role with
  | PVal.pstr r =>
      if r == "inbound" then do
        let ts ← getItem m "timestamp"
        match ts with
        | PVal.pstr t => pure (strLe wstr t)
        | _ => Except.error (PyErr.typeError "timestamp order")
      else pure false
  | _ => pure false

/-- One message test of the total generator expression in
PriorityScorer._engagement_score. -/
def engagement_msg_total (wstr : String) (m : PyDict) : Except PyErr Bool := do
  let ts ← getItem m "timestamp"
  match ts with
  | PVal.pstr t => pure (strLe wstr t)
  | _ => Except.error (PyErr.typeError "timestamp order")

/-- Monadic count of messages satisfying a fallible predicate, embedding the
sum-of-generator idiom of the scorer. -/
def countM (p : PyDict → Except PyErr Bool) : List PyDict → Except PyErr ℕ
  | [] => Except.ok 0
  | m :: ms => do
      let b ← p m
      let n ← countM p ms
      pure (n + (if b then 1 else 0))

/-- Embeds PriorityScorer._engagement_score: the inbound-to-total message
ratio within the trailing engagement window, zero when the window is
empty. -/
def engagement_score (s : Settings) (env : ScorerEnv) (lead_id : PVal) :
    Except PyErr ℚ := do
  let window := env.utcnow - (s.PRIORITY_ENGAGEMENT_WINDOW_DAYS : ℚ)
  let convs ← env.fetch_recent_conversations lead_id 1000
  let wstr := env.isoformat window
  let inbound ← countM (engagement_msg_inbound wstr) convs
  let total ← countM (engagement_msg_total wstr) convs
  pure (if total == 0 then 0 else (inbound : ℚ) / (total : ℚ))

/-- Embeds PriorityScorer._classification_score.  The default bucket is read
eagerly by subscription before the classification lookup falls back to it,
matching the Python argument-evaluation order. -/
def classification_score (s : Settings) (lead : PyDict) : Except PyErr ℚ := do
  let meta := dictGetD lead "metadata" (PVal.pdict [])
  let clsv ← pvalGetD meta "classification" (PVal.pstr "")
  let cls ← pvalLower clsv
  let dflt ← match (s.PRIORITY_CLASS_SCORES.find? (fun p => p.1 == "default")).map (fun p => p.2) with
    | some q => Except.ok q
    | none => Except.error (PyErr.keyError "default")
  pure (((s.PRIORITY_CLASS_SCORES.find? (fun p => p.1 == cls)).map (fun p => p.2)).getD dflt)

/-- The last-contact timestamp used by PriorityScorer.compute: the parsed
timestamp of the most recent conversation, or, for a lead never contacted,
the current time pushed back by exactly the recency half-life. -/
def compute_last_ts (s : Settings) (env : ScorerEnv) (lid : PVal) :
    Except PyErr DTime := do
  let recent ← env.fetch_recent_conversations lid 1
  match recent.head? with
  | some m => do
      let ts ← getItem m "timestamp"
      match ts with
      | PVal.pstr t => env.fromisoformat t
      | _ => Except.error (PyErr.typeError "fromisoformat")
  | none => pure (env.utcnow - (s.PRIORITY_RECENCY_HALF_LIFE_DAYS : ℚ))

/-- Embeds PriorityScorer.compute: recency, engagement and classification
sub-scores combined by the configured weights and rounded to four decimal
places.  The body has no exception handler, so any failure of a sub-score
escapes as an error. -/
def compute (s : Settings) (env : ScorerEnv) (lead : PyDict) :
    Except PyErr ℚ := do
  let lid ← getItem lead "id"
  let last_ts ← compute_last_ts s env lid
  let r := recency_score s env last_ts
  let e ← engagement_score s env lid
  let c ← classification_score s lead
  let score := r * s.PRIORITY_RECENCY_WEIGHT
    + e * s.PRIORITY_ENGAGEMENT_WEIGHT
    + c * s.PRIORITY_CLASS_WEIGHT
  pure (round4 score)

/-- Embeds PriorityScorer._get_response_time_score, whose whole body is
wrapped in a try block falling back to the neutral 0.5.  Buckets are in
days: one hour, one day, three days, seven days. -/
def get_response_time_score (env : ScorerEnv) (lead : PyDict) : ℚ :=
  match (do
    let last_response := dictGetD lead "last_response_time" PVal.pnone
    if !pvalTruthy last_response then pure (1/2 : ℚ) else do
      let t ← match last_response with
        | PVal.pstr x => env.fromisoformat x
        | _ => Except.error (PyErr.typeError "fromisoformat")
      let diff := env.now - t
      pure (if diff < 1/24 then (1 : ℚ)
        else if diff < 1 then 4/5
        else if diff < 3 then 3/5
        else if diff < 7 then 2/5
        else 1/5) : Except PyErr ℚ) with
  | Except.ok q => q
  | Except.error _ => 1/2

/-- Embeds PriorityScorer._get_source_score.  This helper has no exception
handler of its own: reading the source attribute of a non-dictionary
metadata value raises out of it. -/
def get_source_score (lead : PyDict) : Except PyErr ℚ := do
  let meta := dictGetD lead "metadata" (PVal.pdict [])
  let srcv ← pvalGetD meta "source" (PVal.pstr "")
  let source ← pvalLower srcv
  let table : List (String × ℚ) :=
    [("referral", 1), ("website", 9/10), ("social", 4/5),
     ("email", 7/10), ("phone", 3/5), ("other", 1/2)]
  pure (((table.find? (fun p => p.1 == source)).map (fun p => p.2)).getD (1/2))

/-- Embeds PriorityScorer._get_interaction_score, guarded by its own try
block falling back to 0.5; buckets over the number of recent
conversations. -/
def get_interaction_score (env : ScorerEnv) (lead : PyDict) : ℚ :=
  match (do
    let lid ← getItem lead "id"
    let conversations ← env.fetch_recent_conversations lid 100
    let count := conversations.length
    pure (if 10 < count then (1 : ℚ)
      else if 5 < count then 4/5
      else if 2 < count then 3/5
      else if 0 < count then 2/5
      else 1/5) : Except PyErr ℚ) with
  | Except.ok q => q
  | Except.error _ => 1/2

/-- Numeric reading of a metadata value indicator: summing a non-number
raises TypeError, which the caller catches. -/
def pvalAsNum (v : PVal) : Except PyErr ℚ :=
  match v with
  | PVal.pnum q => Except.ok q
  | PVal.pbool b => Except.ok (if b then 1 else 0)
  | _ => Except.error (PyErr.typeError "sum")

/-- Embeds PriorityScorer._get_value_score, guarded by its own try block
falling back to 0.5. -/
def get_value_score (lead : PyDict) : ℚ :=
  match (do
    let meta ← match dictGetD lead "metadata" (PVal.pdict []) with
      | PVal.pdict d => Except.ok d
      | _ => Except.error (PyErr.attributeError "get")
    if dictGetD meta "priority" PVal.pnone == PVal.pstr "High" then pure (1 : ℚ)
    else if dictGetD meta "priority" PVal.pnone == PVal.pstr "Medium" then pure (7/10 : ℚ)
    else if dictGetD meta "priority" PVal.pnone == PVal.pstr "Low" then pure (2/5 : ℚ)
    else do
      let b ← pvalAsNum (dictGetD meta "budget" (PVal.pnum 0))
      let p ← pvalAsNum (dictGetD meta "property_value" (PVal.pnum 0))
      let u ← pvalAsNum (dictGetD meta "urgency" (PVal.pnum 0))
      let avg := (b + p + u) / 3
      pure (min (max (avg / 100) 0) 1) : Except PyErr ℚ) with
  | Except.ok q => q
  | Except.error _ => 1/2

/-- Embeds PriorityScorer._get_time_score, guarded by its own try block
falling back to 0.5; a lead never contacted scores 1.0 here. -/
def get_time_score (env : ScorerEnv) (lead : PyDict) : ℚ :=
  match (do
    let last_contact := dictGetD lead "last_contact" PVal.pnone
    if !pvalTruthy last_contact then pure (1 : ℚ) else do
      let t ← match last_contact with
        | PVal.pstr x => env.fromisoformat x
        | _ => Except.error (PyErr.typeError "fromisoformat")
      let diff := env.now - t
      pure (if diff < 1 then (1/5 : ℚ)
        else if diff < 3 then 2/5
        else if diff < 7 then 3/5
        else if diff < 14 then 4/5
        else 1) : Except PyErr ℚ) with
  | Except.ok q => q
  | Except.error _ => 1/2

/-- The try block of PriorityScorer.calculate_priority_score: accumulates
the five weighted sub-scores in source order, reading each weight from the
weights dictionary by subscription, then clamps to the unit interval. -/
def calculate_priority_try (s : Settings) (env : ScorerEnv) (lead : PyDict) :
    Except PyErr ℚ := do
  let score : ℚ := 0
  let response_time := get_response_time_score env lead
  let w_rt ← weights_item (get_weights s) "response_time"
  let score := score + response_time * w_rt
  let source_score ← get_source_score lead
  let w_src ← weights_item (get_weights s) "lead_source"
  let score := score + source_score * w_src
  let interaction_score := get_interaction_score env lead
  let w_int ← weights_item (get_weights s) "interaction_frequency"
  let score := score + interaction_score * w_int
  let value_score := get_value_score lead
  let w_val ← weights_item (get_weights s) "lead_value"
  let score := score + value_score * w_val
  let time_score := get_time_score env lead
  let w_time ← weights_item (get_weights s) "time_since_last_contact"
  let score := score + time_score * w_time
  pure (min (max score 0) 1)

/-- Embeds PriorityScorer.calculate_priority_score: the try block above with
the blanket exception handler returning the neutral 0.5. -/
def calculate_priority_score (s : Settings) (env : ScorerEnv) (lead : PyDict) : ℚ :=
  match calculate_priority_try s env lead with
  | Except.ok q => q
  | Except.error _ => 1/2

/-- Stable descending insertion used to model the Python builtin sorted with
reverse set: an element moves ahead only of strictly smaller keys, so equal
keys keep their original order. -/
def insortDesc (key : α → ℚ) (x : α) : List α → List α
  | [] => [x]
  | y :: ys => if key y ≤ key x then x :: y :: ys else y :: insortDesc key x ys

/-- Stable descending sort by a rational key, modelling sorted with reverse
set on the scored leads. -/
def sortedDesc (key : α → ℚ) : List α → List α
  | [] => []
  | x :: xs => insortDesc key x (sortedDesc key xs)

/-- Sort key of get_priority_batch: the priority_score entry of a scored
lead dictionary. -/
def priorityKey (d : PyDict) : ℚ :=
  match dictLookup d "priority_score" with
  | some (PVal.pnum q) => q
  | _ => 0

/-- Embeds PriorityScorer.get_priority_batch: attach a priority_score to
every lead, sort stably by descending score, return the first batch_size
entries.  Nothing in the embedded body can raise, so the surrounding
exception handler of the source is unreachable. -/
def get_priority_batch (s : Settings) (env : ScorerEnv)
    (leads : List PyDict) (batch_size : ℕ) : List PyDict :=
  let scored_leads := leads.map (fun lead =>
    dictSet lead "priority_score" (PVal.pnum (calculate_priority_score s env lead)))
  let sorted_leads := sortedDesc priorityKey scored_leads
  sorted_leads.take batch_size

/-- The counters of RetryLogger from app/services/retry_logger.py, keyed by
job name.  The last_failures diagnostic map records only presentation data
(timestamps and stringified errors) and is not modelled. -/
structure RetryLedger where
  retry_counts : List (String × ℕ)
  failure_counts : List (String × ℕ)
deriving Repr, DecidableEq

/-- The empty ledger a fresh RetryLogger starts with. -/
def RetryLedger.empty : RetryLedger := ⟨[], []⟩

/-- Increment of a per-job counter, embedding counts.get(job, 0) + 1 stored
back under the job key. -/
def bumpCount (m : List (String × ℕ)) (job : String) : List (String × ℕ) :=
  if m.any (fun p => p.1 == job) then
    m.map (fun p => if p.1 == job then (job, p.2 + 1) else p)
  else
    m ++ [(job, 1)]

/-- Reading a per-job counter, zero when the job was never recorded. -/
def countOf (m : List (String × ℕ)) (job : String) : ℕ :=
  (((m.find? (fun p => p.1 == job))).map (fun p => p.2)).getD 0

/-- Embeds RetryLogger.log_retry: one more retry recorded for the job. -/
def log_retry (led : RetryLedger) (job : String) : RetryLedger :=
  { led with retry_counts := bumpCount led.retry_counts job }

/-- Embeds RetryLogger.log_failure: one more terminal failure recorded for
the job. -/
def log_failure (led : RetryLedger) (job : String) : RetryLedger :=
  { led with failure_counts := bumpCount led.failure_counts job }

/-- The while loop of the wrapper built by with_retry_logging in
app/services/retry_logger.py.  The wrapped operation is modelled as a
state-passing function from the one-based attempt number to a result; a
raised exception is an error value.  The remaining argument counts the
attempts still allowed (max_retries minus attempt); a failure on the last
allowed attempt records a terminal failure and re-raises, an earlier
failure records a retry and loops.  The error type is extended by none for
the raise of the unset last_error, reachable only with max_retries zero. -/
def wrlLoop {σ E A : Type} (op : ℕ → σ → Except E A × σ) (job : String) :
    (remaining : ℕ) → (attempt : ℕ) → σ → RetryLedger →
    (Except (Option E) A × σ × RetryLedger)
  | 0, _, st, led => (Except.error none, st, led)
  | r + 1, attempt, st, led =>
      let i := attempt + 1
      match op i st with
      | (Except.ok a, st2) => (Except.ok a, st2, led)
      | (Except.error e, st2) =>
          if r = 0 then (Except.error (some e), st2, log_failure led job)
          else wrlLoop op job r i st2 (log_retry led job)

/-- Embeds the wrapper produced by with_retry_logging(max_retries, job):
run the loop from attempt zero on the caller state and ledger. -/
def with_retry_logging {σ E A : Type} (max_retries : ℕ) (job : String)
    (op : ℕ → σ → Except E A × σ) (st : σ) (led : RetryLedger) :
    Except (Option E) A × σ × RetryLedger :=
  wrlLoop op job max_retries 0 st led

/-- The throttle test of run_followups in app/jobs/scheduler_service.py:
skip the lead when the seconds elapsed since its last conversation are
below FOLLOWUP_THROTTLE_SECONDS. -/
def throttle_skip (throttle : ℚ) (utcnow last_ts : DTime) : Bool :=
  decide (timedeltaTotalSeconds (utcnow - last_ts) < throttle)

/-- Eligibility of a lead in a follow-up cycle as run_followups decides it:
a lead with no prior conversation is eligible, otherwise the lead is
eligible exactly when the throttle test does not fire. -/
def lead_eligible (throttle : ℚ) (utcnow : DTime) (last_ts : Option DTime) : Bool :=
  match last_ts with
  | none => true
  | some t => !throttle_skip throttle utcnow t

/-- External collaborators of run_followups: the scorer environment (which
carries the store and the clock), the initial lead fetch, and the dispatch
of one follow-up task.  A dispatch models the created send_followup task;
its error value is the exception the task raises at the gather join. -/
structure SchedEnv where
  scorer : ScorerEnv
  fetch_leads : Except PyErr (List PyDict)
  dispatch : PVal → ℚ → Except PyErr Bool

/-- The per-lead body of the loop in run_followups: read the lead id, fetch
the most recent conversation, apply the throttle, compute the priority
score, drop the lead below FOLLOWUP_MIN_SCORE, otherwise create the
dispatch task.  A none result is a continue. -/
def per_lead_task (s : Settings) (env : SchedEnv) (lead : PyDict) :
    Except PyErr (Option (PVal × ℚ)) := do
  let lid ← getItem lead "id"
  let last ← env.scorer.fetch_recent_conversations lid 1
  let skip ← match last.head? with
    | some m => do
        let ts ← getItem m "timestamp"
        let t ← match ts with
          | PVal.pstr x => env.scorer.fromisoformat x
          | _ => Except.error (PyErr.typeError "fromisoformat")
        pure (throttle_skip s.FOLLOWUP_THROTTLE_SECONDS env.scorer.utcnow t)
    | none => pure false
  if skip then pure none
  else do
    let score ← compute s env.scorer lead
    if score < s.FOLLOWUP_MIN_SCORE then pure none
    else pure (some (lid, score))

/-- The task-collection loop of run_followups.  A per-lead exception is
caught, logged and skipped; but the log call itself subscripts the lead id,
so a lead without an id key re-raises KeyError out of the handler and
aborts the cycle. -/
def followup_tasks (s : Settings) (env : SchedEnv) :
    List PyDict → Except PyErr (List (Except PyErr Bool))
  | [] => Except.ok []
  | lead :: rest =>
      match per_lead_task s env lead with
      | Except.ok none => followup_tasks s env rest
      | Except.ok (some p) =>
          (followup_tasks s env rest).map (fun ts => env.dispatch p.1 p.2 :: ts)
      | Except.error _ =>
          if (dictLookup lead "id").isSome then followup_tasks s env rest
          else Except.error (PyErr.keyError "id")

/-- The first exception raised among the gathered dispatch tasks, if any:
asyncio.gather without return_exceptions propagates it to the awaiting
coroutine. -/
def gatherFirstError {A : Type} (tasks : List (Except PyErr A)) : Option PyErr :=
  tasks.findSome? (fun t => match t with
    | Except.error e => some e
    | Except.ok _ => none)

/-- Embeds run_followups from app/jobs/scheduler_service.py.  A failed lead
fetch is re-raised; per-lead failures are skipped by the loop; then the
created tasks are gathered.  An exception from any task propagates out of
the gather, is logged by the two surrounding handlers and re-raised both
times, so it escapes run_followups.  On success the enqueued-task count of
the summary log line is returned. -/
def run_followups (s : Settings) (env : SchedEnv) : Except PyErr ℕ := do
  let leads ← env.fetch_leads
  let tasks ← followup_tasks s env leads
  if tasks.isEmpty then pure 0
  else match gatherFirstError tasks with
    | some e => Except.error e
    | none => pure tasks.length

/-- Embeds EmailService.is_within_business_hours from
app/services/email_service.py: the hour of the local server clock tested
against the FOLLOWUP window with an exclusive upper bound.  The weekday and
any lead time zone are not consulted by the source, so the predicate takes
only the hour. -/
def is_within_business_hours (s : Settings) (hour : ℤ) : Bool :=
  decide (s.FOLLOWUP_START_HOUR ≤ hour) && decide (hour < s.FOLLOWUP_END_HOUR)

/-- The business-hours test inside EmailService.send_email, lines 265-281:
schedule requested and the current local hour outside the inclusive
EMAIL window or the weekday not Monday through Friday means the message is
appended to the in-memory email queue instead of being sent. -/
def send_email_queues (s : Settings) (hour weekday : ℤ) (schedule : Bool) : Bool :=
  schedule && !(decide (s.EMAIL_START_HOUR ≤ hour) && decide (hour ≤ s.EMAIL_END_HOUR)
    && decide (weekday < 5))

/-- The keyword arguments of EmailService.send_email. -/
structure EmailArgs where
  «to» : String
  subject : String
  template_name : Option String
  template_data : Option PyDict
  body : Option String
  schedule : Bool
  retry_count : ℕ
deriving Repr

/-- The dictionary appended to the primary email queue when a scheduled
message falls outside business hours: it carries only the five payload
fields, not schedule or retry_count. -/
structure EmailQueueItem where
  «to» : String
  subject : String
  template_name : Option String
  template_data : Option PyDict
  body : Option String
deriving Repr

/-- Embeds the queued-email dictionary built inside send_email. -/
def toQueueItem (a : EmailArgs) : EmailQueueItem :=
  ⟨a.«to», a.subject, a.template_name, a.template_data, a.body⟩

/-- An entry of the in-memory retry queue: the email_data dictionary to
resend plus the retry_count bookkeeping field of the entry itself.  The eid
field models Python object identity, needed because the processing loop
mutates entries in place. -/
structure RetryEntry where
  eid : ℕ
  email_data : EmailArgs
  retry_count : ℕ
deriving Repr

/-- Equality of email argument dictionaries as Python compares them. -/
def emailArgsBeq (a b : EmailArgs) : Bool :=
  a.«to» == b.«to» && a.subject == b.subject && a.template_name == b.template_name
    && (match a.template_data, b.template_data with
        | some d1, some d2 => pdictBeq d1 d2
        | none, none => true
        | _, _ => false)
    && a.body == b.body && a.schedule == b.schedule && a.retry_count == b.retry_count

/-- Value equality of retry-queue entries, used by the Python list remove
call, which drops the first element comparing equal. -/
def retryEntryBeq (a b : RetryEntry) : Bool :=
  emailArgsBeq a.email_data b.email_data && a.retry_count == b.retry_count

/-- Removal of the first value-equal entry, embedding retry_queue.remove. -/
def removeFirstEntry (q : List RetryEntry) (target : RetryEntry) : List RetryEntry :=
  match q with
  | [] => []
  | e :: rest =>
      if retryEntryBeq e target then rest
      else e :: removeFirstEntry rest target

/-- In-place mutation of the retry_count field of the entry with the given
identity, embedding the assignment on the dictionary object held both by
the snapshot and by the live queue. -/
def setEntryCount (q : List RetryEntry) (eid : ℕ) (rc : ℕ) : List RetryEntry :=
  q.map (fun e => if e.eid == eid then { e with retry_count := rc } else e)

/-- The metrics block of EmailService. -/
structure EmailMetrics where
  total_sent : ℕ
  total_failed : ℕ
  total_retried : ℕ
deriving Repr, DecidableEq

/-- The mutable state of EmailService: the two in-memory queues, the
metrics, and a counter supplying fresh object identities for new retry
entries. -/
structure EmailState where
  email_queue : List EmailQueueItem
  retry_queue : List RetryEntry
  metrics : EmailMetrics
  next_eid : ℕ
deriving Repr

/-- External collaborators and clock readings of EmailService: the Jinja
template renderer, the Gmail transport (success flag, message id, error
text), and the local hour and weekday send_email reads. -/
structure EmailEnv where
  render : String → PyDict → Except PyErr String
  gmail_send : EmailArgs → Bool × Option String × Option String
  now_hour : ℤ
  now_weekday : ℤ

/-- Python truthiness of the template_data argument: present and
non-empty. -/
def tdataTruthy : Option PyDict → Bool
  | some d => !d.isEmpty
  | none => false

/-- Embeds EmailService._create_message: render the template when both
template_name and template_data are truthy, otherwise fall back to the
plain body, otherwise raise ValueError. -/
def create_message (env : EmailEnv) (a : EmailArgs) : Except PyErr Unit :=
  match a.template_name with
  | some tname =>
      if tdataTruthy a.template_data then
        (env.render tname (a.template_data.getD [])).map (fun _ => ())
      else
        match a.body with
        | some _ => Except.ok ()
        | none => Except.error (PyErr.valueError "no template or body")
  | none =>
      match a.body with
      | some _ => Except.ok ()
      | none => Except.error (PyErr.valueError "no template or body")

/-- The maximum retry count EmailService hard-codes in its constructor. -/
def email_max_retries : ℕ := 3

/-- Embeds the body of EmailService.send_email from
app/services/email_service.py.  Outside business hours a scheduled message
is queued and reported successful; otherwise the message is created and
handed to the Gmail transport.  A transport failure with retry budget left
appends a retry entry whose email_data carries retry_count plus one while
the entry bookkeeping keeps the old count; an exhausted budget counts a
terminal failure.  The blanket exception handler converts a message
creation error into a failed result, so the function never raises, and the
retry-logging decorator around it is therefore the identity. -/
def send_email (s : Settings) (env : EmailEnv) (st : EmailState) (a : EmailArgs) :
    Bool × EmailState :=
  if send_email_queues s env.now_hour env.now_weekday a.schedule then
    (true, { st with email_queue := st.email_queue ++ [toQueueItem a] })
  else
    match create_message env a with
    | Except.error _ =>
        (false, { st with metrics := { st.metrics with total_failed := st.metrics.total_failed + 1 } })
    | Except.ok _ =>
        match env.gmail_send a with
        | (true, _, _) =>
            (true, { st with metrics := { st.metrics with total_sent := st.metrics.total_sent + 1 } })
        | (false, _, _) =>
            if a.retry_count < email_max_retries then
              (false, { st with
                retry_queue := st.retry_queue ++
                  [⟨st.next_eid, { a with retry_count := a.retry_count + 1 }, a.retry_count⟩],
                next_eid := st.next_eid + 1,
                metrics := { st.metrics with total_retried := st.metrics.total_retried + 1 } })
            else
              (false, { st with metrics := { st.metrics with total_failed := st.metrics.total_failed + 1 } })

/-- The per-entry step of EmailService._process_retry_queue: resend the
entry payload; on success remove the entry; on failure bump the entry
count in place and remove the entry once the count reaches the maximum. -/
def process_retry_entry (s : Settings) (env : EmailEnv) (st : EmailState)
    (rd : RetryEntry) : EmailState :=
  let rc := rd.retry_count
  let res := send_email s env st rd.email_data
  let st2 := res.2
  if res.1 then
    { st2 with retry_queue := removeFirstEntry st2.retry_queue rd }
  else
    let q2 := setEntryCount st2.retry_queue rd.eid (rc + 1)
    if email_max_retries ≤ rc + 1 then
      { st2 with retry_queue :=
          removeFirstEntry q2 { rd with retry_count := rc + 1 } }
    else
      { st2 with retry_queue := q2 }

/-- Iteration of _process_retry_queue over the snapshot of the retry queue
taken at entry, threading the live state. -/
def process_retry_snapshot (s : Settings) (env : EmailEnv) :
    List RetryEntry → EmailState → EmailState
  | [], st => st
  | rd :: rest, st => process_retry_snapshot s env rest (process_retry_entry s env st rd)

/-- Embeds EmailService._process_retry_queue: process every entry of the
queue snapshot in order.  The exponential backoff sleep before each resend
only delays execution and is not modelled. -/
def process_retry_queue (s : Settings) (env : EmailEnv) (st : EmailState) : EmailState :=
  process_retry_snapshot s env st.retry_queue st

/-- The metrics dictionary of FollowupService in
app/jobs/followup_service.py. -/
structure FollowupMetrics where
  total_followups : ℕ
  successful_followups : ℕ
  failed_followups : ℕ
  queued_followups : ℕ
  last_alert_time : Option DTime
deriving Repr, DecidableEq

/-- The state FollowupService.send_followup can read or mutate: its own
metrics and the followups table of the external store, which is what
get_queued_followups in process_followup_queue later reads (rows with
status queued). -/
structure FollowupState where
  metrics : FollowupMetrics
  followups_table : List PyDict
deriving Repr

/-- External collaborators of FollowupService.send_followup: the lead
lookup, the e-mail delivery outcome, and the clock readings. -/
structure FollowupEnv where
  get_lead : String → Except PyErr (Option PyDict)
  send_email_result : String → Except PyErr Bool
  now_hour : ℤ
  utcnow : DTime

/-- Embeds FollowupService.check_alert_threshold: stamp last_alert_time
when the queued counter exceeds the alert threshold. -/
def check_alert_threshold (s : Settings) (utcnow : DTime)
    (m : FollowupMetrics) : FollowupMetrics :=
  if s.FOLLOWUP_QUEUE_ALERT_THRESHOLD < m.queued_followups then
    { m with last_alert_time := some utcnow }
  else m

/-- Embeds the body of FollowupService.send_followup (one attempt, inside
the retry-logging decorator).  A missing lead returns False.  Outside
business hours the queued counter is incremented, the alert threshold
checked, and True returned; the task itself is written nowhere.  Inside
business hours the e-mail service is invoked and the outcome counted.  The
final exception handler counts a failure and re-raises. -/
def fs_send_followup_body (s : Settings) (env : FollowupEnv)
    (lead_id : String) (st : FollowupState) :
    Except PyErr Bool × FollowupState :=
  match env.get_lead lead_id with
  | Except.error e =>
      (Except.error e,
        { st with metrics := { st.metrics with
            failed_followups := st.metrics.failed_followups + 1 } })
  | Except.ok none => (Except.ok false, st)
  | Except.ok (some _) =>
      if !is_within_business_hours s env.now_hour then
        let m := { st.metrics with queued_followups := st.metrics.queued_followups + 1 }
        let m := check_alert_threshold s env.utcnow m
        (Except.ok true, { st with metrics := m })
      else
        match env.send_email_result lead_id with
        | Except.error e =>
            (Except.error e,
              { st with metrics := { st.metrics with
                  failed_followups := st.metrics.failed_followups + 1 } })
        | Except.ok success =>
            let m := if success then
                { st.metrics with successful_followups := st.metrics.successful_followups + 1 }
              else
                { st.metrics with failed_followups := st.metrics.failed_followups + 1 }
            (Except.ok success,
              { st with metrics := { m with total_followups := m.total_followups + 1 } })

/-- Embeds FollowupService.send_followup as called by its clients: the body
above wrapped by the retry-logging decorator with three attempts under the
job name send_followup. -/
def fs_send_followup (s : Settings) (env : FollowupEnv) (lead_id : String)
    (st : FollowupState) (led : RetryLedger) :
    Except (Option PyErr) Bool × FollowupState × RetryLedger :=
  with_retry_logging 3 "send_followup"
    (fun _ st2 => fs_send_followup_body s env lead_id st2) st led

/-- Embeds with_retry from app/core/decorators.py: up to max_retries calls
of the operation, returning the first success, otherwise re-raising the
last error after the final attempt (the backoff sleep and the Prometheus
error counter only delay or observe and are not modelled).  The attempt
argument of the operation is zero-based like the range variable of the
source; an error value of none models the raise of an unset last_error,
reachable only with max_retries zero. -/
def wrLoop {E A : Type} (op : ℕ → Except E A) :
    (remaining attempt : ℕ) → Option E → Except (Option E) A
  | 0, _, last => Except.error last
  | r + 1, attempt, _ =>
      match op attempt with
      | Except.ok a => Except.ok a
      | Except.error e => wrLoop op r (attempt + 1) (some e)

/-- The wrapper produced by with_retry(max_retries). -/
def with_retry {E A : Type} (op : ℕ → Except E A) (max_retries : ℕ) :
    Except (Option E) A :=
  wrLoop op max_retries 0 none

/-- The default retry and chunking constants of app/core/constants.py. -/
def DEFAULT_MAX_RETRIES : ℕ := 3

/-- Default exponential backoff base of app/core/constants.py. -/
def DEFAULT_BACKOFF_BASE : ℕ := 2

/-- Default chunk size of app/core/constants.py, used by BatchProcessor. -/
def DEFAULT_CHUNK_SIZE : ℕ := 500

/-- A drained cell update of BatchProcessor.process_batch: row, column and
value parsed from one queue item. -/
abbrev Cell := String × String × String

/-- The slicing loop for i in range(0, len, chunk_size) of process_batch,
with the list length as fuel; for a positive chunk size this yields the
successive fixed-size slices with a shorter final slice. -/
def chunksGo (n : ℕ) : ℕ → List Cell → List (List Cell)
  | 0, _ => []
  | _, [] => []
  | fuel + 1, l => l.take n :: chunksGo n fuel (l.drop n)

/-- The chunks process_batch builds from the drained cell list. -/
def chunks_of (n : ℕ) (l : List Cell) : List (List Cell) :=
  chunksGo n l.length l

/-- The chunk-application loop of process_batch: each chunk is applied
through its own with_retry wrapper; a chunk whose retries are exhausted
re-raises out of the loop, so the chunks after it are not attempted.  The
result carries the outcome and the list of chunks actually applied. -/
def applyChunks {E : Type} (update : List Cell → ℕ → Except E Unit)
    (max_retries : ℕ) : List (List Cell) → Except (Option E) Unit × List (List Cell)
  | [] => (Except.ok (), [])
  | c :: cs =>
      match with_retry (update c) max_retries with
      | Except.ok _ =>
          let rest := applyChunks update max_retries cs
          (rest.1, c :: rest.2)
      | Except.error e => (Except.error e, [])

/-- Embeds the chunked write-back phase of BatchProcessor.process_batch in
app/services/batch_processor.py, applied to the cell list already drained
from the durable queue.  The update argument gives the outcome of one
update_cells call for a given chunk and zero-based attempt. -/
def process_batch {E : Type} (update : List Cell → ℕ → Except E Unit)
    (max_retries chunk_size : ℕ) (cells : List Cell) :
    Except (Option E) Unit × List (List Cell) :=
  applyChunks update max_retries (chunks_of chunk_size cells)

/-- Concrete configuration used by the concrete evaluations below: the
declared defaults plus explicit values for the undeclared FOLLOWUP
parameters. -/
def cfgA : Settings :=
  { FOLLOWUP_THROTTLE_SECONDS := 86400
    FOLLOWUP_MIN_SCORE := 0
    FOLLOWUP_QUEUE_ALERT_THRESHOLD := 100
    FOLLOWUP_START_HOUR := 9
    FOLLOWUP_END_HOUR := 17 }

/-- Concrete scorer environment: a store with no conversations for any
lead, an always-failing timestamp parser (never consulted on the paths
evaluated below), and both clocks at the epoch. -/
def envEmptyStore : ScorerEnv :=
  { fetch_recent_conversations := fun _ _ => Except.ok []
    fromisoformat := fun _ => Except.error (PyErr.valueError "parse")
    isoformat := fun _ => ""
    utcnow := 0
    now := 0 }

/-- A lead whose metadata field holds a number instead of a dictionary:
well-formed as a dictionary, garbage in its metadata. -/
def leadGarbageMeta : PyDict :=
  [("id", PVal.pstr "L1"), ("metadata", PVal.pnum 5)]

/-- A minimal well-formed lead with an id and nothing else. -/
def leadPlain : PyDict := [("id", PVal.pstr "L1")]

/-- Scheduler environment for the concrete dispatch-failure run: the lead
fetch succeeds with one plain lead, the store has no conversations, and the
dispatch task raises. -/
def schedEnvBoom : SchedEnv :=
  { scorer := envEmptyStore
    fetch_leads := Except.ok [leadPlain]
    dispatch := fun _ _ => Except.error (PyErr.runtimeError "boom") }

/-- Concrete e-mail arguments of a message already on its second attempt:
plain body, not scheduled, payload retry_count one. -/
def argsRetryA : EmailArgs :=
  { «to» := "a@example.com"
    subject := "hello"
    template_name := none
    template_data := none
    body := some "hi"
    schedule := false
    retry_count := 1 }

/-- Concrete e-mail service state whose retry queue holds exactly one entry
for argsRetryA with bookkeeping count zero. -/
def emailStateOne : EmailState :=
  { email_queue := []
    retry_queue := [⟨0, argsRetryA, 0⟩]
    metrics := ⟨0, 0, 0⟩
    next_eid := 1 }

/-- Concrete e-mail environment whose Gmail transport always fails, on a
weekday inside the EMAIL window so nothing is deferred to the queue. -/
def emailEnvFail : EmailEnv :=
  { render := fun _ _ => Except.ok "html"
    gmail_send := fun _ => (false, none, some "quota exceeded")
    now_hour := 10
    now_weekday := 0 }

/-- Count of retry-queue entries addressed to a given recipient and
subject, the identity of a logical delivery task. -/
def countTask (q : List RetryEntry) (recipient subject : String) : ℕ :=
  q.countP (fun e => e.email_data.«to» == recipient && e.email_data.subject == subject)

/-- Three drained cell updates for the concrete chunk-failure run. -/
def cellsThree : List Cell :=
  [("1", "A", "x"), ("2", "B", "y"), ("3", "C", "z")]

/-- A chunk updater that fails on every attempt for every chunk. -/
def updateAlwaysFails : List Cell → ℕ → Except Unit Unit :=
  fun _ _ => Except.error ()

/-- Scheduler environment identical to the failure fixture except that the
dispatch task completes without raising. -/
def schedEnvOk : SchedEnv :=
  { scorer := envEmptyStore
    fetch_leads := Except.ok [leadPlain]
    dispatch := fun _ _ => Except.ok true }

/-- Follow-up service environment evaluated at eight in the evening, outside
the nine-to-five FOLLOWUP window, with a known lead and a transport that
would succeed. -/
def fenvOutside : FollowupEnv :=
  { get_lead := fun _ => Except.ok (some leadPlain)
    send_email_result := fun _ => Except.ok true
    now_hour := 20
    utcnow := 0 }

/-- Fresh follow-up service state: zeroed metrics and an empty followups
table in the store. -/
def fstate0 : FollowupState :=
  { metrics := ⟨0, 0, 0, 0, none⟩
    followups_table := [] }

/-- E-mail environment at the closing-hour boundary: seventeen hundred
hours on a Wednesday, with a transport that succeeds. -/
def emailEnvBoundary : EmailEnv :=
  { render := fun _ _ => Except.ok "html"
    gmail_send := fun _ => (true, some "mid-1", none)
    now_hour := 17
    now_weekday := 2 }

/-- A scheduled message (schedule True) on its first attempt. -/
def argsSched : EmailArgs :=
  { «to» := "b@example.com"
    subject := "news"
    template_name := none
    template_data := none
    body := some "txt"
    schedule := true
    retry_count := 0 }

/-- E-mail service state with both queues empty and zeroed metrics. -/
def emailStateEmpty : EmailState :=
  { email_queue := []
    retry_queue := []
    metrics := ⟨0, 0, 0⟩
    next_eid := 0 }

/-- CLAIM C1.  The claim says the recency sub-score of a never-contacted
lead is 1.0, the maximal urgency floor, and that compute substitutes
days_since equal to HALF_LIFE_DAYS.  The substitution is real, but it
makes the sub-score max(0, 1 - HALF_LIFE/HALF_LIFE) = 0, the minimum of
the decay, contradicting both the claim and the comment in the source
(never contacted = highest recency urgency): for every environment and
lead id with no stored conversations, compute uses last_ts = utcnow -
HALF_LIFE_DAYS and the recency sub-score it produces is 0, not 1. -/
theorem priority_never_contacted_recency_zero
    (s : Settings) (env : ScorerEnv) (lid : PVal)
    (hfetch : env.fetch_recent_conversations lid 1 = Except.ok [])
    (hpos : 0 < s.PRIORITY_RECENCY_HALF_LIFE_DAYS) :
    compute_last_ts s env lid =
      Except.ok (env.utcnow - (s.PRIORITY_RECENCY_HALF_LIFE_DAYS : ℚ)) ∧
    recency_score s env (env.utcnow - (s.PRIORITY_RECENCY_HALF_LIFE_DAYS : ℚ)) = 0 := by
  constructor
  · simp only [compute_last_ts, hfetch]
    rfl
  · have hne : ((s.PRIORITY_RECENCY_HALF_LIFE_DAYS : ℕ) : ℚ) ≠ 0 :=
      Nat.cast_ne_zero.mpr hpos.ne'
    have hq : env.utcnow - (env.utcnow - (s.PRIORITY_RECENCY_HALF_LIFE_DAYS : ℚ)) =
        ((s.PRIORITY_RECENCY_HALF_LIFE_DAYS : ℕ) : ℚ) := by ring
    unfold recency_score timedeltaDays
    rw [hq, Int.floor_natCast]
    push_cast
    rw [div_self hne]
    simp

/-- Witness for C1 at the concrete fixture: the store returns no
conversations and the half-life is the default seven days. -/
theorem priority_never_contacted_recency_zero_witness :
    envEmptyStore.fetch_recent_conversations (PVal.pstr "L1") 1 = Except.ok [] ∧
    0 < cfgA.PRIORITY_RECENCY_HALF_LIFE_DAYS ∧
    (compute_last_ts cfgA envEmptyStore (PVal.pstr "L1") =
      Except.ok (envEmptyStore.utcnow - (cfgA.PRIORITY_RECENCY_HALF_LIFE_DAYS : ℚ)) ∧
    recency_score cfgA envEmptyStore
      (envEmptyStore.utcnow - (cfgA.PRIORITY_RECENCY_HALF_LIFE_DAYS : ℚ)) = 0) :=
  ⟨rfl, by decide,
    priority_never_contacted_recency_zero cfgA envEmptyStore (PVal.pstr "L1") rfl (by decide)⟩

/-- CLAIM C6.  The throttle of run_followups skips a lead exactly when the
seconds elapsed since its most recent conversation are strictly below
FOLLOWUP_THROTTLE_SECONDS; a lead with no prior conversation is eligible
immediately, and a lead whose elapsed time equals the threshold exactly is
eligible. -/
theorem throttle_eligibility_spec (throttle : ℚ) (utcnow : DTime)
    (last_ts : Option DTime) :
    (lead_eligible throttle utcnow last_ts = false ↔
      ∃ t, last_ts = some t ∧ timedeltaTotalSeconds (utcnow - t) < throttle) ∧
    (last_ts = none → lead_eligible throttle utcnow last_ts = true) ∧
    (∀ t, last_ts = some t → timedeltaTotalSeconds (utcnow - t) = throttle →
      lead_eligible throttle utcnow last_ts = true) := by
  refine ⟨?_, ?_, ?_⟩
  · cases last_ts with
    | none => simp [lead_eligible]
    | some t => simp [lead_eligible, throttle_skip]
  · intro h
    subst h
    simp [lead_eligible]
  · intro t h heq
    subst h
    simp [lead_eligible, throttle_skip, heq]

/-- Witness for C6: a lead contacted half a day ago with a one-day throttle
is skipped, an uncontacted lead is eligible, and a lead exactly at the
threshold is eligible. -/
theorem throttle_eligibility_spec_witness :
    lead_eligible 86400 1 none = true ∧
    lead_eligible 86400 1 (some (1/2)) = false ∧
    lead_eligible 86400 2 (some 1) = true :=
  ⟨(throttle_eligibility_spec 86400 1 none).2.1 rfl,
   (throttle_eligibility_spec 86400 1 (some (1/2))).1.mpr
     ⟨1/2, rfl, by norm_num [timedeltaTotalSeconds]⟩,
   (throttle_eligibility_spec 86400 2 (some 1)).2.2 1 rfl
     (by norm_num [timedeltaTotalSeconds])⟩

/-- Reading a counter past a non-matching head entry. -/
theorem countOf_cons_ne (p : String × ℕ) (rest : List (String × ℕ))
    (job : String) (hb : (p.1 == job) = false) :
    countOf (p :: rest) job = countOf rest job := by
  simp [countOf, List.find?_cons_of_neg, hb]

/-- Reading a counter at a matching head entry. -/
theorem countOf_cons_eq (v : ℕ) (rest : List (String × ℕ)) (job : String) :
    countOf ((job, v) :: rest) job = v := by
  simp [countOf, List.find?_cons_of_pos]

/-- Reading a bumped counter back: the bumped job gains one. -/
theorem countOf_bumpCount (m : List (String × ℕ)) (job : String) :
    countOf (bumpCount m job) job = countOf m job + 1 := by
  induction m with
  | nil => simp [bumpCount, countOf]
  | cons p rest ih =>
      rcases p with ⟨k, v⟩
      by_cases h : k = job
      · subst h
        have hany : ((k, v) :: rest).any (fun q => q.1 == k) = true := by
          simp [List.any_cons]
        simp only [bumpCount, hany, if_true, List.map_cons]
        simp only [beq_self_eq_true, if_true]
        rw [countOf_cons_eq, countOf_cons_eq]
      · have hb : (k == job) = false := by
          simp [h]
        by_cases h2 : rest.any (fun q => q.1 == job) = true
        · have hany : (((k, v) : String × ℕ) :: rest).any (fun q => q.1 == job) = true := by
            simp [List.any_cons, h2]
          have e2 : bumpCount rest job =
              rest.map (fun q => if q.1 == job then (job, q.2 + 1) else q) := by
            simp [bumpCount, h2]
          simp only [bumpCount, hany, if_true, List.map_cons, hb, if_false,
            Bool.false_eq_true]
          rw [countOf_cons_ne _ _ _ hb, countOf_cons_ne _ _ _ hb, ← e2, ih]
        · have h2f : rest.any (fun q => q.1 == job) = false := by
            revert h2
            cases rest.any (fun q => q.1 == job) <;> simp
          have hany : (((k, v) : String × ℕ) :: rest).any (fun q => q.1 == job) = false := by
            simp [List.any_cons, h2f, hb]
          have e2 : bumpCount rest job = rest ++ [(job, 1)] := by
            simp [bumpCount, h2f]
          simp only [bumpCount, hany, if_false, Bool.false_eq_true, List.cons_append]
          rw [countOf_cons_ne _ _ _ hb, countOf_cons_ne _ _ _ hb, ← e2, ih]

/-- The ledger step of a retry does not touch the failure counters, and the
step of a failure does not touch the retry counters. -/
theorem log_retry_failure_counts (led : RetryLedger) (job : String) :
    (log_retry led job).failure_counts = led.failure_counts ∧
    (log_failure led job).retry_counts = led.retry_counts :=
  ⟨rfl, rfl⟩

/-- Loop invariant for the success scenario of the retry-logging wrapper:
from any attempt offset, k failures followed by a success inside the
remaining budget return the success and add exactly k retries and no
failures to the ledger. -/
theorem wrlLoop_succ_spec {σ E A : Type} (op : ℕ → σ → Except E A × σ)
    (job : String) (a : A) :
    ∀ (k : ℕ) (errs : ℕ → E) (r attempt : ℕ) (st : σ) (led : RetryLedger),
    k < r →
    (∀ i, i < k → ∀ st2, (op (attempt + i + 1) st2).1 = Except.error (errs i)) →
    (∀ st2, (op (attempt + k + 1) st2).1 = Except.ok a) →
    (wrlLoop op job r attempt st led).1 = Except.ok a ∧
    countOf (wrlLoop op job r attempt st led).2.2.retry_counts job =
      countOf led.retry_counts job + k ∧
    (wrlLoop op job r attempt st led).2.2.failure_counts = led.failure_counts := by
  intro k
  induction k with
  | zero =>
      intro errs r attempt st led hk _ hsucc
      obtain ⟨r2, rfl⟩ : ∃ r2, r = r2 + 1 := ⟨r - 1, by omega⟩
      have hs := hsucc st
      rcases hop : op (attempt + 1) st with ⟨res, st2⟩
      rw [hop] at hs
      simp only at hs
      subst hs
      simp [wrlLoop, hop]
  | succ k ih =>
      intro errs r attempt st led hk hfail hsucc
      obtain ⟨r2, rfl⟩ : ∃ r2, r = r2 + 1 := ⟨r - 1, by omega⟩
      have hf := hfail 0 (by omega) st
      rcases hop : op (attempt + 1) st with ⟨res, st2⟩
      rw [hop] at hf
      simp only at hf
      subst hf
      have hr2 : r2 ≠ 0 := by omega
      have step := ih (fun i => errs (i + 1)) r2 (attempt + 1) st2
        (log_retry led job) (by omega)
        (fun i hi st3 => by
          have := hfail (i + 1) (by omega) st3
          simpa [Nat.add_assoc, Nat.add_comm, Nat.add_left_comm] using this)
        (fun st3 => by
          have := hsucc st3
          simpa [Nat.add_assoc, Nat.add_comm, Nat.add_left_comm] using this)
      refine ⟨?_, ?_, ?_⟩
      · simpa [wrlLoop, hop, hr2] using step.1
      · have := step.2.1
        simp only [log_retry] at this
        rw [countOf_bumpCount] at this
        simpa [wrlLoop, hop, hr2, Nat.add_assoc, Nat.add_comm, Nat.add_left_comm] using this
      · simpa [wrlLoop, hop, hr2, log_retry] using step.2.2

/-- Loop invariant for the all-failures scenario of the retry-logging
wrapper: with a positive remaining budget and every attempt failing, the
loop re-raises the error of the final attempt and adds budget minus one
retries and exactly one terminal failure to the ledger. -/
theorem wrlLoop_fail_spec {σ E A : Type} (op : ℕ → σ → Except E A × σ)
    (job : String) :
    ∀ (r : ℕ) (errs : ℕ → E) (attempt : ℕ) (st : σ) (led : RetryLedger),
    1 ≤ r →
    (∀ i, i < r → ∀ st2, (op (attempt + i + 1) st2).1 = Except.error (errs i)) →
    (wrlLoop op job r attempt st led).1 = Except.error (some (errs (r - 1))) ∧
    countOf (wrlLoop op job r attempt st led).2.2.retry_counts job =
      countOf led.retry_counts job + (r - 1) ∧
    countOf (wrlLoop op job r attempt st led).2.2.failure_counts job =
      countOf led.failure_counts job + 1 := by
  intro r
  induction r with
  | zero => intro errs attempt st led hr; omega
  | succ r2 ih =>
      intro errs attempt st led _ hfail
      have hf := hfail 0 (by omega) st
      rcases hop : op (attempt + 1) st with ⟨res, st2⟩
      rw [hop] at hf
      simp only at hf
      subst hf
      by_cases hr2 : r2 = 0
      · subst hr2
        simp [wrlLoop, hop, log_failure, countOf_bumpCount]
      · have step := ih (fun i => errs (i + 1)) (attempt + 1) st2
          (log_retry led job) (by omega)
          (fun i hi st3 => by
            have := hfail (i + 1) (by omega) st3
            simpa [Nat.add_assoc, Nat.add_comm, Nat.add_left_comm] using this)
        refine ⟨?_, ?_, ?_⟩
        · have := step.1
          simp only at this
          rw [show r2 - 1 + 1 = r2 + 1 - 1 from by omega] at this
          simpa [wrlLoop, hop, hr2] using this
        · have := step.2.1
          simp only [log_retry] at this
          rw [countOf_bumpCount] at this
          have harith : countOf led.retry_counts job + 1 + (r2 - 1) =
              countOf led.retry_counts job + (r2 + 1 - 1) := by omega
          rw [harith] at this
          simpa [wrlLoop, hop, hr2] using this
        · have := step.2.2
          simpa [wrlLoop, hop, hr2, log_retry] using this

/-- CLAIM C5.  The retry-logging wrapper of app/services/retry_logger.py:
an operation failing exactly k times with k below max_retries and then
succeeding makes the wrapper return the success value with k retries and no
terminal failure added to the ledger for that job; an operation failing on
every attempt makes the wrapper re-raise the error of attempt number
max_retries with exactly one terminal failure added.  The Except result
makes success and terminal failure mutually exclusive observations. -/
theorem with_retry_logging_spec :
    (∀ (σ E A : Type) (op : ℕ → σ → Except E A × σ) (job : String)
      (a : A) (k max_retries : ℕ) (errs : ℕ → E) (st : σ) (led : RetryLedger),
      k < max_retries →
      (∀ i, i < k → ∀ st2, (op (i + 1) st2).1 = Except.error (errs i)) →
      (∀ st2, (op (k + 1) st2).1 = Except.ok a) →
      (with_retry_logging max_retries job op st led).1 = Except.ok a ∧
      countOf (with_retry_logging max_retries job op st led).2.2.retry_counts job =
        countOf led.retry_counts job + k ∧
      (with_retry_logging max_retries job op st led).2.2.failure_counts =
        led.failure_counts) ∧
    (∀ (σ E A : Type) (op : ℕ → σ → Except E A × σ) (job : String)
      (max_retries : ℕ) (errs : ℕ → E) (st : σ) (led : RetryLedger),
      1 ≤ max_retries →
      (∀ i, i < max_retries → ∀ st2, (op (i + 1) st2).1 = Except.error (errs i)) →
      (with_retry_logging max_retries job op st led).1 =
        Except.error (some (errs (max_retries - 1))) ∧
      countOf (with_retry_logging max_retries job op st led).2.2.retry_counts job =
        countOf led.retry_counts job + (max_retries - 1) ∧
      countOf (with_retry_logging max_retries job op st led).2.2.failure_counts job =
        countOf led.failure_counts job + 1) := by
  constructor
  · intro σ E A op job a k maxr errs st led hk hfail hsucc
    have := wrlLoop_succ_spec op job a k errs maxr 0 st led hk
      (fun i hi st2 => by simpa using hfail i hi st2)
      (fun st2 => by simpa using hsucc st2)
    simpa [with_retry_logging] using this
  · intro σ E A op job maxr errs st led hr hfail
    have := wrlLoop_fail_spec op job maxr errs 0 st led hr
      (fun i hi st2 => by simpa using hfail i hi st2)
    simpa [with_retry_logging] using this

/-- Witness for C5: an operation that fails twice then succeeds under a
budget of three returns the success with two retries and no failure
recorded, and an operation that always fails under a budget of two
re-raises the second error with one retry and one terminal failure. -/
theorem with_retry_logging_spec_witness :
    ((with_retry_logging 3 "test_job"
        (fun i st => ((if i < 3 then Except.error "boom" else Except.ok 42 : Except String ℕ), st))
        () RetryLedger.empty).1 = Except.ok 42 ∧
      countOf (with_retry_logging 3 "test_job"
        (fun i st => ((if i < 3 then Except.error "boom" else Except.ok 42 : Except String ℕ), st))
        () RetryLedger.empty).2.2.retry_counts "test_job" =
        countOf RetryLedger.empty.retry_counts "test_job" + 2 ∧
      (with_retry_logging 3 "test_job"
        (fun i st => ((if i < 3 then Except.error "boom" else Except.ok 42 : Except String ℕ), st))
        () RetryLedger.empty).2.2.failure_counts =
        RetryLedger.empty.failure_counts) ∧
    ((with_retry_logging 2 "always_fails"
        (fun _ st => ((Except.error "down" : Except String ℕ), st)) () RetryLedger.empty).1 =
        Except.error (some "down") ∧
      countOf (with_retry_logging 2 "always_fails"
        (fun _ st => ((Except.error "down" : Except String ℕ), st)) () RetryLedger.empty).2.2.retry_counts
        "always_fails" = countOf RetryLedger.empty.retry_counts "always_fails" + 1 ∧
      countOf (with_retry_logging 2 "always_fails"
        (fun _ st => ((Except.error "down" : Except String ℕ), st)) () RetryLedger.empty).2.2.failure_counts
        "always_fails" = countOf RetryLedger.empty.failure_counts "always_fails" + 1) :=
  ⟨with_retry_logging_spec.1 Unit String ℕ
      (fun i st => ((if i < 3 then Except.error "boom" else Except.ok 42 : Except String ℕ), st))
      "test_job" 42 2 3 (fun _ => "boom") () RetryLedger.empty
      (by omega)
      (fun i hi st2 => by
        have : i + 1 < 3 := by omega
        simp [this])
      (fun st2 => by norm_num),
   with_retry_logging_spec.2 Unit String ℕ
      (fun _ st => ((Except.error "down" : Except String ℕ), st)) "always_fails" 2
      (fun _ => "down") () RetryLedger.empty (by omega)
      (fun i hi st2 => by simp)⟩

/-- The first weight lookup of calculate_priority_score raises KeyError,
because the weights dictionary holds only recency, engagement and
classification. -/
theorem calculate_priority_try_key_error (s : Settings) (env : ScorerEnv)
    (lead : PyDict) :
    calculate_priority_try s env lead =
      Except.error (PyErr.keyError "response_time") := by
  simp only [calculate_priority_try, weights_item, get_weights, List.find?]
  rfl

/-- Every lead scores the neutral one half through
calculate_priority_score: the KeyError of the missing response_time weight
is swallowed by the blanket handler. -/
theorem calculate_priority_score_eq_half (s : Settings) (env : ScorerEnv)
    (lead : PyDict) : calculate_priority_score s env lead = 1/2 := by
  simp [calculate_priority_score, calculate_priority_try_key_error]

/-- Looking up the key just written by a dictionary merge returns the new
value. -/
theorem dictLookup_dictSet (d : PyDict) (k : String) (v : PVal) :
    dictLookup (dictSet d k v) k = some v := by
  induction d with
  | nil => simp [dictSet, dictLookup, List.find?]
  | cons p rest ih =>
      rcases p with ⟨k1, v1⟩
      by_cases h : k1 = k
      · subst h
        have hany : ((k1, v1) :: rest).any (fun q => q.1 == k1) = true := by
          simp [List.any_cons]
        simp only [dictSet, hany, if_true, List.map_cons, beq_self_eq_true,
          if_true, dictLookup, List.find?]
        simp
      · have hb : (k1 == k) = false := by simp [h]
        by_cases h2 : rest.any (fun q => q.1 == k) = true
        · have hany : (((k1, v1) : String × PVal) :: rest).any (fun q => q.1 == k) = true := by
            simp [List.any_cons, h2]
          have e2 : dictSet rest k v =
              rest.map (fun q => if q.1 == k then (k, v) else q) := by
            simp [dictSet, h2]
          simp only [dictSet, hany, if_true, List.map_cons, hb, if_false,
            Bool.false_eq_true]
          simp only [dictLookup, List.find?] at ih ⊢
          simp only [hb] at ih ⊢
          rw [← e2] at *
          simpa [dictSet, h2] using ih
        · have h2f : rest.any (fun q => q.1 == k) = false := by
            revert h2
            cases rest.any (fun q => q.1 == k) <;> simp
          have hany : (((k1, v1) : String × PVal) :: rest).any (fun q => q.1 == k) = false := by
            simp [List.any_cons, h2f, hb]
          have e2 : dictSet rest k v = rest ++ [(k, v)] := by
            simp [dictSet, h2f]
          simp only [dictSet, hany, if_false, Bool.false_eq_true, List.cons_append]
          simp only [dictLookup, List.find?] at ih ⊢
          simp only [hb] at ih ⊢
          rw [← e2] at *
          simpa [dictSet, h2f] using ih

/-- The sort key of a freshly scored lead is the score just attached. -/
theorem priorityKey_dictSet (lead : PyDict) (q : ℚ) :
    priorityKey (dictSet lead "priority_score" (PVal.pnum q)) = q := by
  simp [priorityKey, dictLookup_dictSet]

/-- The stable descending sort leaves a list untouched when every element
has the same key. -/
theorem sortedDesc_const_key {α : Type} (key : α → ℚ) (c : ℚ) :
    ∀ l : List α, (∀ a ∈ l, key a = c) → sortedDesc key l = l := by
  intro l
  induction l with
  | nil => intro _; rfl
  | cons x xs ih =>
      intro h
      have hx : key x = c := h x (by simp)
      have hxs : sortedDesc key xs = xs := ih (fun a ha => h a (by simp [ha]))
      simp only [sortedDesc, hxs]
      cases xs with
      | nil => rfl
      | cons y ys =>
          have hy : key y = c := h y (by simp)
          simp [insortDesc, hx, hy]

/-- CLAIM C9.  For every lead dictionary calculate_priority_score returns
exactly the neutral 0.5: the weight keys it reads (response_time first) are
absent from the configured weights dictionary, the KeyError is caught and
the default returned.  Consequently get_priority_batch returns the first
batch_size leads of its input in their original order, each carrying the
attached neutral priority_score entry, because the stable descending sort
of equal keys is the identity. -/
theorem get_priority_batch_neutral_order (s : Settings) (env : ScorerEnv)
    (leads : List PyDict) (batch_size : ℕ) :
    (∀ lead : PyDict, calculate_priority_score s env lead = 1/2) ∧
    get_priority_batch s env leads batch_size =
      (leads.map (fun lead =>
        dictSet lead "priority_score" (PVal.pnum (1/2)))).take batch_size := by
  refine ⟨fun lead => calculate_priority_score_eq_half s env lead, ?_⟩
  unfold get_priority_batch
  have hmap : leads.map (fun lead =>
      dictSet lead "priority_score" (PVal.pnum (calculate_priority_score s env lead))) =
      leads.map (fun lead => dictSet lead "priority_score" (PVal.pnum (1/2))) := by
    apply List.map_congr_left
    intro lead _
    rw [calculate_priority_score_eq_half]
  rw [hmap]
  have hsort : sortedDesc priorityKey (leads.map (fun lead =>
      dictSet lead "priority_score" (PVal.pnum (1/2)))) =
      leads.map (fun lead => dictSet lead "priority_score" (PVal.pnum (1/2))) := by
    apply sortedDesc_const_key priorityKey (1/2)
    intro a ha
    obtain ⟨lead, _, rfl⟩ := List.mem_map.mp ha
    exact priorityKey_dictSet lead (1/2)
  simp only [hsort]

/-- CLAIM C7, counterexample.  The claim says scoring never lets an
exception escape the scorer and degrades to the neutral 0.5 on internal
failure.  PriorityScorer.compute has no exception handler: on a lead whose
metadata field holds a number instead of a dictionary, the classification
sub-score calls get on the number and the AttributeError escapes compute
instead of any neutral score being returned. -/
theorem compute_raises_on_garbage_metadata :
    compute cfgA envEmptyStore leadGarbageMeta =
      Except.error (PyErr.attributeError "get") := by
  rfl

/-- CLAIM C7, amended.  The degradation contract holds for
calculate_priority_score, whose blanket handler makes it total with the
neutral 0.5 inside the unit interval for every lead, however malformed; but
compute itself propagates exceptions (see the counterexample), so the claim
is false of the scorer as a whole. -/
theorem calculate_priority_score_bounded (s : Settings) (env : ScorerEnv)
    (lead : PyDict) :
    0 ≤ calculate_priority_score s env lead ∧
    calculate_priority_score s env lead ≤ 1 := by
  rw [calculate_priority_score_eq_half]
  norm_num

/-- Bind of a success in the Except monad runs the continuation. -/
theorem except_bind_ok {ε α β : Type} (x : α) (f : α → Except ε β) :
    (Except.ok x : Except ε α) >>= f = f x := rfl

/-- Pure in the Except monad is a success value. -/
theorem except_pure {ε α : Type} (x : α) : (pure x : Except ε α) = Except.ok x := rfl

/-- Concrete evaluation of compute on the plain lead over the empty store:
recency zero (the C1 slip), engagement zero, classification default, giving
the rounded weighted sum one tenth. -/
theorem compute_leadPlain_eval :
    compute cfgA envEmptyStore leadPlain = Except.ok (1/10) := by
  have h0 : compute cfgA envEmptyStore leadPlain = Except.ok (round4
      (recency_score cfgA envEmptyStore (envEmptyStore.utcnow - ((7:ℕ) : ℚ)) * (1/2)
        + 0 * (3/10) + (1/2) * (1/5))) := rfl
  have h1 : recency_score cfgA envEmptyStore (envEmptyStore.utcnow - ((7:ℕ) : ℚ)) = 0 := by
    unfold recency_score timedeltaDays
    norm_num [envEmptyStore, show cfgA.PRIORITY_RECENCY_HALF_LIFE_DAYS = 7 from rfl]
  rw [h0, h1]
  unfold round4
  norm_num

/-- CLAIM C2, counterexample.  The claim says no exception raised inside a
single dispatch propagates out of the fan-out join and the cycle always
completes with a summary.  With one eligible lead whose dispatch task
raises, the gather of run_followups propagates the exception and both
surrounding handlers re-raise it, so run_followups itself fails even though
the initial lead fetch succeeded. -/
theorem run_followups_dispatch_error_propagates :
    schedEnvBoom.fetch_leads = Except.ok [leadPlain] ∧
    run_followups cfgA schedEnvBoom =
      Except.error (PyErr.runtimeError "boom") := by
  refine ⟨rfl, ?_⟩
  have hp : per_lead_task cfgA schedEnvBoom leadPlain =
      Except.ok (some (PVal.pstr "L1", 1/10)) := by
    have h0 : per_lead_task cfgA schedEnvBoom leadPlain =
        (do
          let score ← compute cfgA envEmptyStore leadPlain
          if score < cfgA.FOLLOWUP_MIN_SCORE then pure none
          else pure (some (PVal.pstr "L1", score)) : Except PyErr (Option (PVal × ℚ))) := rfl
    have hlt : ¬ ((1/10 : ℚ) < cfgA.FOLLOWUP_MIN_SCORE) := by
      norm_num [show cfgA.FOLLOWUP_MIN_SCORE = 0 from rfl]
    rw [h0, compute_leadPlain_eval, except_bind_ok, if_neg hlt]
    rfl
  have ht : followup_tasks cfgA schedEnvBoom [leadPlain] =
      Except.ok [Except.error (PyErr.runtimeError "boom")] := by
    simp [followup_tasks, hp]
    rfl
  simp only [run_followups]
  rw [show schedEnvBoom.fetch_leads = Except.ok [leadPlain] from rfl]
  rw [except_bind_ok, ht, except_bind_ok]
  rfl

/-- Task collection of run_followups under well-formed leads: when every
lead carries an id key, the collection loop cannot itself raise, and every
collected task is a dispatch invocation. -/
theorem followup_tasks_spec (s : Settings) (env : SchedEnv) :
    ∀ leads : List PyDict,
    (∀ lead ∈ leads, (dictLookup lead "id").isSome = true) →
    ∃ ts, followup_tasks s env leads = Except.ok ts ∧
      ∀ t ∈ ts, ∃ x q, t = env.dispatch x q := by
  intro leads
  induction leads with
  | nil => intro _; exact ⟨[], rfl, by simp⟩
  | cons lead rest ih =>
      intro hids
      obtain ⟨ts, hts, hall⟩ := ih (fun l hl => hids l (by simp [hl]))
      cases h : per_lead_task s env lead with
      | ok o =>
          cases o with
          | none => exact ⟨ts, by simp [followup_tasks, h, hts], hall⟩
          | some p =>
              refine ⟨env.dispatch p.1 p.2 :: ts,
                by simp [followup_tasks, h, hts, Except.map], ?_⟩
              intro t ht
              rcases List.mem_cons.mp ht with h1 | h2
              · exact ⟨p.1, p.2, h1⟩
              · exact hall t h2
      | error e =>
          have hid : (dictLookup lead "id").isSome = true := hids lead (by simp)
          exact ⟨ts, by simp [followup_tasks, h, hid, hts], hall⟩

/-- A gather over tasks none of which raised reports no exception. -/
theorem gatherFirstError_none {A : Type} :
    ∀ ts : List (Except PyErr A),
    (∀ t ∈ ts, exOk t = true) → gatherFirstError ts = none := by
  intro ts
  induction ts with
  | nil => intro _; rfl
  | cons t rest ih =>
      intro h
      cases ht : t with
      | ok a =>
          subst ht
          simp only [gatherFirstError, List.findSome?]
          exact ih (fun u hu => h u (by simp [hu]))
      | error e =>
          have := h t (by simp)
          rw [ht] at this
          simp [exOk] at this

/-- CLAIM C2, amended.  When the initial lead fetch succeeds, every fetched
lead carries an id key, and no dispatch task raises, run_followups
completes and reports a summary, whatever per-lead exceptions occur while
fetching history, throttling or scoring; but an exception raised inside a
dispatch task does propagate out of the gather join and out of
run_followups, as the counterexample shows. -/
theorem run_followups_completes_when_dispatches_ok (s : Settings)
    (env : SchedEnv) (leads : List PyDict)
    (hfetch : env.fetch_leads = Except.ok leads)
    (hids : ∀ lead ∈ leads, (dictLookup lead "id").isSome = true)
    (hdisp : ∀ x q, exOk (env.dispatch x q) = true) :
    ∃ n, run_followups s env = Except.ok n := by
  obtain ⟨ts, hts, hall⟩ := followup_tasks_spec s env leads hids
  have hgather : gatherFirstError ts = none :=
    gatherFirstError_none ts (fun t ht => by
      obtain ⟨x, q, rfl⟩ := hall t ht
      exact hdisp x q)
  by_cases he : ts.isEmpty = true
  · refine ⟨0, ?_⟩
    simp only [run_followups]
    rw [hfetch, except_bind_ok, hts, except_bind_ok, if_pos he]
    rfl
  · refine ⟨ts.length, ?_⟩
    simp only [run_followups]
    rw [hfetch, except_bind_ok, hts, except_bind_ok, if_neg he, hgather]
    rfl

/-- Witness for the amended C2 at a concrete environment whose single
dispatch completes without raising. -/
theorem run_followups_completes_witness :
    schedEnvOk.fetch_leads = Except.ok [leadPlain] ∧
    (∀ lead ∈ [leadPlain], (dictLookup lead "id").isSome = true) ∧
    (∀ x q, exOk (schedEnvOk.dispatch x q) = true) ∧
    ∃ n, run_followups cfgA schedEnvOk = Except.ok n :=
  ⟨rfl,
   fun lead hl => by rw [List.mem_singleton.mp hl]; rfl,
   fun x q => rfl,
   run_followups_completes_when_dispatches_ok cfgA schedEnvOk [leadPlain]
     rfl (fun lead hl => by rw [List.mem_singleton.mp hl]; rfl)
     (fun x q => rfl)⟩

/-- The alert-threshold check only stamps the alert time; it never touches
the queued counter. -/
theorem check_alert_threshold_queued (s : Settings) (t : DTime)
    (m : FollowupMetrics) :
    (check_alert_threshold s t m).queued_followups = m.queued_followups := by
  unfold check_alert_threshold
  split <;> rfl

/-- CLAIM C3.  The claim says a follow-up submitted outside business hours
is appended to a delivery queue and remains retrievable by the later
queue-processing job.  The code only increments the queued_followups
counter, logs, and returns True: nothing is written to the store, so the
followups table that process_followup_queue later reads through
get_queued_followups is unchanged and the task (lead id, template name,
template data) is dropped. -/
theorem send_followup_outside_hours_drops_task (s : Settings)
    (env : FollowupEnv) (lead_id : String) (st : FollowupState)
    (led : RetryLedger) (lead : PyDict)
    (hlead : env.get_lead lead_id = Except.ok (some lead))
    (hout : is_within_business_hours s env.now_hour = false) :
    (fs_send_followup s env lead_id st led).1 = Except.ok true ∧
    (fs_send_followup s env lead_id st led).2.1.followups_table =
      st.followups_table ∧
    (fs_send_followup s env lead_id st led).2.1.metrics.queued_followups =
      st.metrics.queued_followups + 1 := by
  have hbody : fs_send_followup_body s env lead_id st =
      (Except.ok true, { st with metrics := (check_alert_threshold s env.utcnow
        { st.metrics with queued_followups := st.metrics.queued_followups + 1 }) }) := by
    unfold fs_send_followup_body
    rw [hlead]
    simp [hout]
  have hrun : fs_send_followup s env lead_id st led =
      (Except.ok true, ({ st with metrics := (check_alert_threshold s env.utcnow
        { st.metrics with queued_followups := st.metrics.queued_followups + 1 }) }), led) := by
    unfold fs_send_followup with_retry_logging
    simp only [wrlLoop, hbody]
  rw [hrun]
  refine ⟨rfl, rfl, ?_⟩
  simp only [check_alert_threshold_queued]

/-- Witness for C3 at the concrete fixture: eight in the evening, a known
lead, fresh state. -/
theorem send_followup_outside_hours_drops_task_witness :
    fenvOutside.get_lead "L1" = Except.ok (some leadPlain) ∧
    is_within_business_hours cfgA fenvOutside.now_hour = false ∧
    ((fs_send_followup cfgA fenvOutside "L1" fstate0 RetryLedger.empty).1 =
      Except.ok true ∧
    (fs_send_followup cfgA fenvOutside "L1" fstate0 RetryLedger.empty).2.1.followups_table =
      fstate0.followups_table ∧
    (fs_send_followup cfgA fenvOutside "L1" fstate0 RetryLedger.empty).2.1.metrics.queued_followups =
      fstate0.metrics.queued_followups + 1) :=
  ⟨rfl, rfl,
    send_followup_outside_hours_drops_task cfgA fenvOutside "L1" fstate0
      RetryLedger.empty leadPlain rfl rfl⟩

/-- CLAIM C4, counterexample.  The claim says a retried task that fails
again never appears more than once in the retry queue.  Processing a
one-entry retry queue against a failing transport leaves the queue with two
entries for the same recipient and subject: send_email appends a fresh
entry while the processing loop keeps (and bumps) the original. -/
theorem retry_queue_duplicate_counterexample :
    countTask (process_retry_queue cfgA emailEnvFail emailStateOne).retry_queue
      "a@example.com" "hello" = 2 := by
  rfl

/-- CLAIM C4, amended.  When the only queued retry entry fails again with
retry budget left on both counters (the payload counter below the maximum,
so send_email re-appends, and the entry counter plus one below the maximum,
so the processing loop keeps the entry), the queue afterwards holds exactly
two entries for the same task: the original with its counter bumped in
place, and the fresh entry send_email appended with the payload counter
advanced.  The one-of-four-states invariant of the claim therefore fails
for retried tasks. -/
theorem retry_requeue_duplicates_task (s : Settings) (env : EmailEnv)
    (st : EmailState) (i : ℕ) (a : EmailArgs) (rc : ℕ)
    (hq : st.retry_queue = [⟨i, a, rc⟩])
    (hsched : a.schedule = false)
    (mid errm : Option String)
    (hcreate : create_message env a = Except.ok ())
    (hgmail : env.gmail_send a = (false, mid, errm))
    (hbudget : a.retry_count < email_max_retries)
    (hkeep : rc + 1 < email_max_retries)
    (hne : i ≠ st.next_eid) :
    (process_retry_queue s env st).retry_queue =
      [⟨i, a, rc + 1⟩,
       ⟨st.next_eid, { a with retry_count := a.retry_count + 1 }, a.retry_count⟩] ∧
    countTask (process_retry_queue s env st).retry_queue a.«to» a.subject = 2 := by
  have hqueue : send_email_queues s env.now_hour env.now_weekday a.schedule = false := by
    simp [send_email_queues, hsched]
  have hsend : send_email s env st a =
      (false, { st with
        retry_queue := st.retry_queue ++
          [⟨st.next_eid, { a with retry_count := a.retry_count + 1 }, a.retry_count⟩],
        next_eid := st.next_eid + 1,
        metrics := { st.metrics with total_retried := st.metrics.total_retried + 1 } }) := by
    unfold send_email
    rw [hqueue, hcreate, hgmail]
    simp [hbudget]
  have hentry : process_retry_entry s env st ⟨i, a, rc⟩ =
      { st with
        retry_queue :=
          [⟨i, a, rc + 1⟩,
           ⟨st.next_eid, { a with retry_count := a.retry_count + 1 }, a.retry_count⟩],
        next_eid := st.next_eid + 1,
        metrics := { st.metrics with total_retried := st.metrics.total_retried + 1 } } := by
    unfold process_retry_entry
    rw [hsend]
    have hnk : ¬ (email_max_retries ≤ rc + 1) := by omega
    simp only [if_neg hnk, Bool.false_eq_true, if_false]
    have hset : setEntryCount (st.retry_queue ++
        [⟨st.next_eid, { a with retry_count := a.retry_count + 1 }, a.retry_count⟩]) i (rc + 1) =
        [⟨i, a, rc + 1⟩,
         ⟨st.next_eid, { a with retry_count := a.retry_count + 1 }, a.retry_count⟩] := by
      rw [hq]
      have hbne : (st.next_eid == i) = false := by
        simp [Ne.symm hne]
      simp [setEntryCount, hbne]
      intro h
      exact absurd h (Ne.symm hne)
    simp [hset]
  have hfinal : process_retry_queue s env st =
      { st with
        retry_queue :=
          [⟨i, a, rc + 1⟩,
           ⟨st.next_eid, { a with retry_count := a.retry_count + 1 }, a.retry_count⟩],
        next_eid := st.next_eid + 1,
        metrics := { st.metrics with total_retried := st.metrics.total_retried + 1 } } := by
    unfold process_retry_queue
    rw [hq]
    simp only [process_retry_snapshot]
    rw [hentry]
  rw [hfinal]
  refine ⟨rfl, ?_⟩
  simp [countTask]

/-- Witness for the amended C4 at the concrete fixture: one queued entry,
transport always failing. -/
theorem retry_requeue_duplicates_task_witness :
    emailStateOne.retry_queue = [⟨0, argsRetryA, 0⟩] ∧
    argsRetryA.schedule = false ∧
    create_message emailEnvFail argsRetryA = Except.ok () ∧
    emailEnvFail.gmail_send argsRetryA = (false, none, some "quota exceeded") ∧
    argsRetryA.retry_count < email_max_retries ∧
    0 + 1 < email_max_retries ∧
    (0 : ℕ) ≠ emailStateOne.next_eid ∧
    ((process_retry_queue cfgA emailEnvFail emailStateOne).retry_queue =
      [⟨0, argsRetryA, 0 + 1⟩,
       ⟨emailStateOne.next_eid,
        { argsRetryA with retry_count := argsRetryA.retry_count + 1 },
        argsRetryA.retry_count⟩] ∧
    countTask (process_retry_queue cfgA emailEnvFail emailStateOne).retry_queue
      argsRetryA.«to» argsRetryA.subject = 2) :=
  ⟨rfl, rfl, rfl, rfl, by decide, by decide, by decide,
    retry_requeue_duplicates_task cfgA emailEnvFail emailStateOne 0 argsRetryA 0
      rfl rfl none (some "quota exceeded") rfl rfl (by decide) (by decide) (by decide)⟩

/-- CLAIM C8, counterexample.  The claim says one chunk's terminal failure
does not block the application of subsequent chunks already dequeued.
Three drained cells with chunk size two produce two chunks; the first chunk
exhausting its retries re-raises out of process_batch and the second chunk,
although already dequeued, is never applied. -/
theorem process_batch_chunk_failure_blocks :
    process_batch updateAlwaysFails DEFAULT_MAX_RETRIES 2 cellsThree =
      (Except.error (some ()), []) := by
  rfl

/-- The chunk-length profile of the slicing loop depends only on the length
of the sliced list. -/
theorem chunksGo_map_length (n : ℕ) :
    ∀ (f : ℕ) (l l2 : List Cell), l.length = l2.length →
    (chunksGo n f l).map List.length = (chunksGo n f l2).map List.length := by
  intro f
  induction f with
  | zero => intro l l2 _; cases l <;> cases l2 <;> rfl
  | succ f ih =>
      intro l l2 h
      cases l with
      | nil =>
          cases l2 with
          | nil => rfl
          | cons b bs => simp at h
      | cons a as =>
          cases l2 with
          | nil => simp at h
          | cons b bs =>
              simp only [chunksGo, List.map_cons]
              congr 1
              · rw [List.length_take, List.length_take, h]
              · exact ih _ _ (by rw [List.length_drop, List.length_drop, h])

set_option maxRecDepth 40000

/-- CLAIM C8, amended.  A flush of 1200 pending writes with the default
chunk size 500 produces exactly three chunks of sizes 500, 500 and 200, and
each chunk is applied through its own with_retry wrapper; but a chunk whose
retries are exhausted re-raises out of the chunk loop, so the subsequent
chunks already dequeued are not applied (the pair returned by the embedded
process_batch carries the outcome and the chunks actually applied). -/
theorem process_batch_chunking_spec :
    (∀ x : Cell,
      (chunks_of DEFAULT_CHUNK_SIZE (List.replicate 1200 x)).map List.length =
        [500, 500, 200]) ∧
    (∀ (E : Type) (update : List Cell → ℕ → Except E Unit) (max_retries : ℕ)
      (c : List Cell) (cs : List (List Cell)) (e : Option E),
      with_retry (update c) max_retries = Except.error e →
      applyChunks update max_retries (c :: cs) = (Except.error e, [])) ∧
    (∀ (E : Type) (update : List Cell → ℕ → Except E Unit)
      (max_retries chunk_size : ℕ) (cells : List Cell),
      process_batch update max_retries chunk_size cells =
        applyChunks update max_retries (chunks_of chunk_size cells)) := by
  refine ⟨?_, ?_, ?_⟩
  · intro x
    have hlen : (List.replicate 1200 x).length = (List.replicate 1200 (("", "", "") : Cell)).length := by
      rw [List.length_replicate, List.length_replicate]
    calc (chunks_of DEFAULT_CHUNK_SIZE (List.replicate 1200 x)).map List.length
        = (chunksGo DEFAULT_CHUNK_SIZE 1200 (List.replicate 1200 x)).map List.length := by
          unfold chunks_of
          rw [List.length_replicate]
      _ = (chunksGo DEFAULT_CHUNK_SIZE 1200 (List.replicate 1200 (("", "", "") : Cell))).map List.length :=
          chunksGo_map_length DEFAULT_CHUNK_SIZE 1200 _ _ hlen
      _ = [500, 500, 200] := by decide
  · intro E update max_retries c cs e herr
    unfold applyChunks
    rw [herr]
  · intro E update max_retries chunk_size cells
    rfl

/-- Witness for the amended C8: the always-failing updater exhausts its
retries on the first chunk and the second chunk stays unapplied. -/
theorem process_batch_chunking_spec_witness :
    with_retry (updateAlwaysFails [("1", "A", "x")]) DEFAULT_MAX_RETRIES =
      Except.error (some ()) ∧
    applyChunks updateAlwaysFails DEFAULT_MAX_RETRIES
      [[("1", "A", "x")], [("2", "B", "y")]] = (Except.error (some ()), []) :=
  ⟨rfl,
    process_batch_chunking_spec.2.1 Unit updateAlwaysFails DEFAULT_MAX_RETRIES
      [("1", "A", "x")] [[("2", "B", "y")]] (some ()) rfl⟩

/-- CLAIM C10.  The two business-hours predicates disagree at the closing
hour: with the FOLLOWUP and EMAIL end hours configured equal, at any
weekday instant whose hour equals that end hour, the scheduling test inside
send_email (inclusive upper bound plus weekday test) keeps the message out
of the deferral queue and proceeds to immediate delivery, while
is_within_business_hours (exclusive upper bound, defined with no weekday or
lead-time-zone input at all, reading only the server clock hour) reports
the same instant as outside business hours. -/
theorem business_hours_boundary_disagreement (s : Settings) (env : EmailEnv)
    (st : EmailState) (a : EmailArgs)
    (hsched : a.schedule = true)
    (hhour : env.now_hour = s.EMAIL_END_HOUR)
    (hstart : s.EMAIL_START_HOUR ≤ s.EMAIL_END_HOUR)
    (hwd : env.now_weekday < 5)
    (hfw : s.FOLLOWUP_END_HOUR = s.EMAIL_END_HOUR) :
    send_email_queues s env.now_hour env.now_weekday a.schedule = false ∧
    (send_email s env st a).2.email_queue = st.email_queue ∧
    is_within_business_hours s env.now_hour = false := by
  have hq : send_email_queues s env.now_hour env.now_weekday a.schedule = false := by
    simp [send_email_queues, hsched, hhour, hstart, hwd]
  refine ⟨hq, ?_, ?_⟩
  · unfold send_email
    rw [hq]
    simp only [Bool.false_eq_true, if_false]
    cases hcm : create_message env a with
    | error e => simp
    | ok u =>
        rcases hg : env.gmail_send a with ⟨b, mid2, err2⟩
        cases b
        · simp only
          split <;> rfl
        · rfl
  · rw [is_within_business_hours, hhour, hfw]
    simp

/-- Witness for C10: the default nine-to-seventeen windows, seventeen
hundred hours on a Wednesday. -/
theorem business_hours_boundary_disagreement_witness :
    argsSched.schedule = true ∧
    emailEnvBoundary.now_hour = cfgA.EMAIL_END_HOUR ∧
    cfgA.EMAIL_START_HOUR ≤ cfgA.EMAIL_END_HOUR ∧
    emailEnvBoundary.now_weekday < 5 ∧
    cfgA.FOLLOWUP_END_HOUR = cfgA.EMAIL_END_HOUR ∧
    (send_email_queues cfgA emailEnvBoundary.now_hour emailEnvBoundary.now_weekday
        argsSched.schedule = false ∧
      (send_email cfgA emailEnvBoundary emailStateEmpty argsSched).2.email_queue =
        emailStateEmpty.email_queue ∧
      is_within_business_hours cfgA emailEnvBoundary.now_hour = false) :=
  ⟨rfl, rfl, by decide, by decide, rfl,
    business_hours_boundary_disagreement cfgA emailEnvBoundary emailStateEmpty
      argsSched rfl rfl (by decide) (by decide) rfl⟩
